import Mathlib

/-!
Verification of the twilio-media-phone media session engine against its
specification.  The definitions below are shallow embeddings of the
source files:

* ULawDecoderProcessor (worklet/ulaw-decoder-processor.js): µ-law decode
  table, message handler, buffer queue and the per-quantum process loop.
* ULawProcessor (worklet/ulaw-processor.js): linear-to-µ-law encoder.
* MediaPhone.tsx: the WebSocket message dispatcher, the mark slot, the
  clear handler and the disconnect sequence.

JavaScript numbers are modelled as ℚ (all arithmetic performed by the
codec on these values is exact dyadic arithmetic, so ℚ is lossless);
JS bitwise operations apply ToInt32, i.e. truncation toward zero, which
on the non-negative values reaching them is the floor.
-/

/-- One entry of the 256-entry µ-law decode table built by
ULawDecoderProcessor.initMuLawTable.  The JS computes val = ~i in 32-bit
twos complement; only the low 8 bits of val feed the masks 0x0F, 0x70
and 0x80, and the low byte of the complement of i is 0xFF ^^^ (i &&& 0xFF). -/
def muLawTable (i : Nat) : Int :=
  let val := 0xFF ^^^ (i &&& 0xFF)
  let t := ((val &&& 0x0F) <<< 3) + 0x84
  let t := t <<< ((val &&& 0x70) >>> 4)
  if val &&& 0x80 ≠ 0 then 0x84 - (t : Int) else (t : Int) - 0x84

/-- Canonical telephony (G.711 µ-law) reference decode table, the
ground truth of the specification: entry b is the 16-bit linear value for
encoded byte b. -/
def muLawReferenceTable : List Int :=
  [ -32124, -31100, -30076, -29052, -28028, -27004, -25980, -24956,
    -23932, -22908, -21884, -20860, -19836, -18812, -17788, -16764,
    -15996, -15484, -14972, -14460, -13948, -13436, -12924, -12412,
    -11900, -11388, -10876, -10364,  -9852,  -9340,  -8828,  -8316,
     -7932,  -7676,  -7420,  -7164,  -6908,  -6652,  -6396,  -6140,
     -5884,  -5628,  -5372,  -5116,  -4860,  -4604,  -4348,  -4092,
     -3900,  -3772,  -3644,  -3516,  -3388,  -3260,  -3132,  -3004,
     -2876,  -2748,  -2620,  -2492,  -2364,  -2236,  -2108,  -1980,
     -1884,  -1820,  -1756,  -1692,  -1628,  -1564,  -1500,  -1436,
     -1372,  -1308,  -1244,  -1180,  -1116,  -1052,   -988,   -924,
      -876,   -844,   -812,   -780,   -748,   -716,   -684,   -652,
      -620,   -588,   -556,   -524,   -492,   -460,   -428,   -396,
      -372,   -356,   -340,   -324,   -308,   -292,   -276,   -260,
      -244,   -228,   -212,   -196,   -180,   -164,   -148,   -132,
      -120,   -112,   -104,    -96,    -88,    -80,    -72,    -64,
       -56,    -48,    -40,    -32,    -24,    -16,     -8,      0,
     32124,  31100,  30076,  29052,  28028,  27004,  25980,  24956,
     23932,  22908,  21884,  20860,  19836,  18812,  17788,  16764,
     15996,  15484,  14972,  14460,  13948,  13436,  12924,  12412,
     11900,  11388,  10876,  10364,   9852,   9340,   8828,   8316,
      7932,   7676,   7420,   7164,   6908,   6652,   6396,   6140,
      5884,   5628,   5372,   5116,   4860,   4604,   4348,   4092,
      3900,   3772,   3644,   3516,   3388,   3260,   3132,   3004,
      2876,   2748,   2620,   2492,   2364,   2236,   2108,   1980,
      1884,   1820,   1756,   1692,   1628,   1564,   1500,   1436,
      1372,   1308,   1244,   1180,   1116,   1052,    988,    924,
       876,    844,    812,    780,    748,    716,    684,    652,
       620,    588,    556,    524,    492,    460,    428,    396,
       372,    356,    340,    324,    308,    292,    276,    260,
       244,    228,    212,    196,    180,    164,    148,    132,
       120,    112,    104,     96,     88,     80,     72,     64,
        56,     48,     40,     32,     24,     16,      8,      0 ]

/-- ULawDecoderProcessor.decodeMuLaw: muLawTable[b] / 32768.0, a
normalized floating sample (exact in ℚ). -/
def decodeMuLaw (b : Nat) : ℚ := (muLawTable b : ℚ) / 32768

/-- Exponent search loop of ULawProcessor.linearToUlaw:
for (let expMask = 0x4000; (sample & expMask) === 0 && exponent > 0; expMask >>= 1) exponent--;
started with exponent 7 and mask 0x4000, on the truncated sample s. -/
def ulawExpSearch (s : Nat) : Nat → Nat → Nat
  | 0, _ => 0
  | e + 1, mask => if s &&& mask = 0 then ulawExpSearch s e (mask >>> 1) else e + 1

/-- ULawProcessor.linearToUlaw.  The input is the scaled JS float; the
bitwise operations apply ToInt32, which truncates the non-negative
biased magnitude toward zero, hence the single floor.  The final
~x & 0xFF on x < 256 is 0xFF ^^^ x. -/
def linearToUlaw (sample : ℚ) : Nat :=
  let sign : Nat := if sample < 0 then 0x80 else 0
  let sample := |sample|
  let sample := if sample > 32635 then (32635 : ℚ) else sample
  let sample := sample + 0x84
  let s : Nat := (⌊sample⌋).toNat
  let exponent := ulawExpSearch s 7 0x4000
  let mantissa := (s >>> (exponent + 3)) &&& 0x0F
  0xFF ^^^ (sign ||| (exponent <<< 4) ||| mantissa)

/-- Integer form of linearToUlaw applied to a decoded table value t:
the JS float fed to the encoder is (t / 32768) * 32767, an exact dyadic
rational, so the sign test, clip test and floor can be carried out on
the integer t directly.  The agreement with linearToUlaw is proved in
linearToUlaw_scaled below; this form reduces in the kernel. -/
def linearToUlawScaled (t : Int) : Nat :=
  let sign : Nat := if t < 0 then 0x80 else 0
  let m : Nat := t.natAbs
  let s : Nat :=
    if 32635 * 32768 < m * 32767 then 32635 + 0x84
    else m * 32767 / 32768 + 0x84
  let exponent := ulawExpSearch s 7 0x4000
  let mantissa := (s >>> (exponent + 3)) &&& 0x0F
  0xFF ^^^ (sign ||| (exponent <<< 4) ||| mantissa)

/-- Per-sample body of ULawProcessor.process: the worklet reads a
channel sample and encodes channelData[i] * 32767. -/
def encodeSample (x : ℚ) : Nat := linearToUlaw (x * 32767)

/-- Round trip of one encoded byte through the decoder worklet and back
through the encoder worklet: linearToUlaw (decodeMuLaw b * 32767). -/
def ulawRoundTrip (b : Nat) : Nat := encodeSample (decodeMuLaw b)

/-!
Decoder worklet model: state, port messages and the process loop of
ULawDecoderProcessor (worklet/ulaw-decoder-processor.js).
-/

/-- Entry of this.bufferQueue: one queued frame awaiting playback. -/
structure QueuedBuffer where
  data : List Nat
  markName : Option String
  sequenceNumber : Int
deriving DecidableEq

/-- Mutable state of a ULawDecoderProcessor instance. -/
structure DecoderState where
  bufferQueue : List QueuedBuffer
  currentBuffer : Option (List Nat)
  bufferPosition : Nat
  currentMark : Option String
  isActive : Bool
  sequenceNumber : Int
deriving DecidableEq

/-- State set up by the ULawDecoderProcessor constructor. -/
def initDecoderState : DecoderState :=
  { bufferQueue := [], currentBuffer := none, bufferPosition := 0,
    currentMark := none, isActive := false, sequenceNumber := 0 }

/-- Message posted from the main thread to the decoder worklet port. -/
inductive WorkletIn
  | decode (ulawData : List Nat) (markName : Option String) (sequenceNumber : Option Int)
  | clear
deriving DecidableEq

/-- Message posted from the decoder worklet back to the main thread. -/
inductive WorkletOut
  | bufferQueued (bufferLength queueLength : Nat)
  | bufferProcessed (markName : Option String)
  | cleared
deriving DecidableEq

/-- JS truthiness of a mark-name field (markName || null and the
message.mark?.name guard): a missing name and the empty string are
falsy and collapse to null. -/
def jsMarkField : Option String → Option String
  | some s => if s = "" then none else some s
  | none => none

/-- Insertion step of the stable ascending sort: the new element goes
after every element whose sequenceNumber is less than or equal. -/
def insertBySeq (x : QueuedBuffer) : List QueuedBuffer → List QueuedBuffer
  | [] => [x]
  | y :: ys =>
    if y.sequenceNumber ≤ x.sequenceNumber then y :: insertBySeq x ys
    else x :: y :: ys

/-- Stable ascending sort by sequenceNumber, the behaviour of
bufferQueue.sort((a, b) => a.sequenceNumber - b.sequenceNumber)
(ES2019 Array.prototype.sort is stable). -/
def sortBySeq (l : List QueuedBuffer) : List QueuedBuffer :=
  l.foldl (fun acc x => insertBySeq x acc) []

/-- ULawDecoderProcessor.handleMessage.  For a decode message the JS
reads event.data.sequenceNumber || this.sequenceNumber++, so an absent
or zero (falsy) sequence number falls back to the auto counter, which
is post-incremented; the new entry is pushed and the whole queue
re-sorted ascending by sequenceNumber.  A clear message discards the
queue, the current buffer and its mark. -/
def handleMessage (st : DecoderState) : WorkletIn → DecoderState × List WorkletOut
  | .decode ulawData markField seqField =>
    let markName := jsMarkField markField
    let auto : Bool := match seqField with
      | none => true
      | some n => n == 0
    let sequenceNumber := if auto then st.sequenceNumber else seqField.getD 0
    let st := if auto then { st with sequenceNumber := st.sequenceNumber + 1 } else st
    let queue := sortBySeq (st.bufferQueue ++ [⟨ulawData, markName, sequenceNumber⟩])
    ({ st with bufferQueue := queue },
     [.bufferQueued ulawData.length queue.length])
  | .clear =>
    ({ st with bufferQueue := [], currentBuffer := none,
               currentMark := none, bufferPosition := 0 },
     [.cleared])

/-- ULawDecoderProcessor.loadNextBuffer: shift the head of bufferQueue
into the current-buffer slot. -/
def loadNextBuffer (st : DecoderState) : DecoderState × Bool :=
  match st.bufferQueue with
  | [] => (st, false)
  | next :: rest =>
    ({ st with bufferQueue := rest, currentBuffer := some next.data,
               currentMark := next.markName, bufferPosition := 0,
               isActive := true }, true)

/-- Guard of ULawDecoderProcessor.process:
!this.currentBuffer || this.bufferPosition >= this.currentBuffer.length. -/
def bufferExhausted (st : DecoderState) : Bool :=
  match st.currentBuffer with
  | none => true
  | some data => data.length ≤ st.bufferPosition

/-- Sample-filling loop of ULawDecoderProcessor.process: decode one byte
per output slot while the buffer lasts; on exhaustion the loop breaks
and the remaining slots keep the zero the output channel was
initialized with.  Returns the filled channel and the new position. -/
def fillOutput (data : List Nat) (pos quantum : Nat) : List ℚ × Nat :=
  let n := min quantum (data.length - pos)
  (((data.drop pos).take n).map decodeMuLaw ++ List.replicate (quantum - n) 0,
   pos + n)

/-- Result of one ULawDecoderProcessor.process call: the next state,
the samples written to the output channel, and the posted messages. -/
structure ProcessResult where
  state : DecoderState
  output : List ℚ
  messages : List WorkletOut
deriving DecidableEq

/-- ULawDecoderProcessor.process for one render quantum of the given
length: retire an exhausted current buffer (posting bufferProcessed
with its mark), promote the next queued buffer or fall back to silence,
then fill the output channel. -/
def process (st : DecoderState) (quantum : Nat) : ProcessResult :=
  if bufferExhausted st then
    let retire : List WorkletOut × DecoderState :=
      match st.currentBuffer with
      | some _ => ([.bufferProcessed st.currentMark],
                   { st with currentBuffer := none, currentMark := none })
      | none => ([], st)
    let msgs := retire.1
    let st := retire.2
    match loadNextBuffer st with
    | (st, false) =>
      { state := { st with isActive := false },
        output := List.replicate quantum 0, messages := msgs }
    | (st, true) =>
      let data := st.currentBuffer.getD []
      let r := fillOutput data st.bufferPosition quantum
      { state := { st with bufferPosition := r.2 }, output := r.1, messages := msgs }
  else
    let data := st.currentBuffer.getD []
    let r := fillOutput data st.bufferPosition quantum
    { state := { st with bufferPosition := r.2 }, output := r.1, messages := [] }

/-- Repeated render calls: the state after n process calls, the per-call
output channels, and the concatenation of all posted messages. -/
def runProcess (quantum : Nat) :
    DecoderState → Nat → DecoderState × List (List ℚ) × List WorkletOut
  | st, 0 => (st, [], [])
  | st, n + 1 =>
    let r := process st quantum
    let rest := runProcess quantum r.state n
    (rest.1, r.output :: rest.2.1, r.messages ++ rest.2.2)

/-- Marker names the main thread converts to outbound mark envelopes:
decoderWorkletNode.port.onmessage sends one mark envelope per
bufferProcessed message whose markName is truthy. -/
def markCompletions : List WorkletOut → List String
  | [] => []
  | .bufferProcessed (some s) :: rest =>
    if s = "" then markCompletions rest else s :: markCompletions rest
  | _ :: rest => markCompletions rest

/-!
Main-thread model (MediaPhone.tsx): the WebSocket message dispatcher
_handleWebSocketMessage with its single pending-mark slot, the media
forwarding path processMediaMessage, and clearAudioBuffer.
-/

/-- Inbound protocol envelope as dispatched by _handleWebSocketMessage
(envelope kinds outside this set are only logged). -/
inductive InboundEnvelope
  | media (payload : List Nat) (sequenceNumber : Int) (chunk : Int)
  | mark (name : Option String)
  | clear
deriving DecidableEq

/-- Outbound mark envelope produced by the audio pipeline handlers
modelled here (via _sendMessageToClient with event mark); the
streamSid stamp and the Date.now() sequence are orthogonal to the
claims and omitted. -/
inductive OutboundEnvelope
  | markEnvelope (name : String)
deriving DecidableEq

/-- Main-thread state relevant to inbound media handling:
pendingMarkFromServerRef (the single mark slot), pendingMarksRef (the
set of unacknowledged mark names — no code path in MediaPhone.tsx ever
adds to it), and the decoder worklet reached through the port. -/
structure MainState where
  pendingMarkFromServer : Option String
  pendingMarks : List String
  decoder : DecoderState
deriving DecidableEq

/-- Reaction of decoderWorkletNode.port.onmessage to one message from
the worklet: a bufferProcessed message with a truthy markName becomes
an outbound mark envelope; bufferQueued and cleared only log. -/
def onWorkletMessage : WorkletOut → List OutboundEnvelope
  | .bufferProcessed (some s) => if s = "" then [] else [.markEnvelope s]
  | _ => []

/-- MediaPhone.processMediaMessage: read and empty the pending-mark
slot, then post a decode message to the decoder worklet carrying the
payload, that mark, and message.sequenceNumber || message.media.chunk
(a zero sequence number is falsy and falls back to chunk). -/
def processMediaMessage (s : MainState) (payload : List Nat)
    (sequenceNumber chunk : Int) : MainState × List WorkletIn :=
  let markName := s.pendingMarkFromServer
  let s := { s with pendingMarkFromServer := none }
  let seqSent := if sequenceNumber == 0 then chunk else sequenceNumber
  (s, [.decode payload markName (some seqSent)])

/-- MediaPhone.clearAudioBuffer: post a clear message to the decoder
worklet, send one outbound mark envelope per name in pendingMarks,
then empty that set.  (The current-source stop, the legacy
audioBufferQueue reset and the timeline reset touch no state the
envelope traffic or the decoder depend on.) -/
def clearAudioBuffer (s : MainState) :
    MainState × List OutboundEnvelope × List WorkletIn :=
  let outs := s.pendingMarks.map OutboundEnvelope.markEnvelope
  ({ s with pendingMarks := [] }, outs, [WorkletIn.clear])

/-- Delivery of a batch of port messages to the decoder worklet, with
every reply routed back through decoderWorkletNode.port.onmessage. -/
def applyWorkletIn (d : DecoderState) :
    List WorkletIn → DecoderState × List OutboundEnvelope
  | [] => (d, [])
  | m :: rest =>
    let r := handleMessage d m
    let outs1 := r.2.foldr (fun reply acc => onWorkletMessage reply ++ acc) []
    let r2 := applyWorkletIn r.1 rest
    (r2.1, outs1 ++ r2.2)

/-- MediaPhone._handleWebSocketMessage: dispatch one inbound envelope;
the worklet messages it posts are applied to the decoder and also
returned so the forwarded frame contents are observable. -/
def handleWebSocketMessage (s : MainState) (e : InboundEnvelope) :
    MainState × List OutboundEnvelope × List WorkletIn :=
  match e with
  | .media payload seq chunk =>
    let r := processMediaMessage s payload seq chunk
    let ra := applyWorkletIn r.1.decoder r.2
    ({ r.1 with decoder := ra.1 }, ra.2, r.2)
  | .mark name =>
    match jsMarkField name with
    | none => (s, [], [])
    | some n => ({ s with pendingMarkFromServer := some n }, [], [])
  | .clear =>
    let r := clearAudioBuffer s
    let ra := applyWorkletIn r.1.decoder r.2.2
    ({ r.1 with decoder := ra.1 }, r.2.1 ++ ra.2, r.2.2)

/-- Sequential dispatch of a list of inbound envelopes, collecting all
outbound envelopes sent along the way. -/
def runInbound (s : MainState) :
    List InboundEnvelope → MainState × List OutboundEnvelope
  | [] => (s, [])
  | e :: rest =>
    let r := handleWebSocketMessage s e
    let r2 := runInbound r.1 rest
    (r2.1, r.2.1 ++ r2.2)

/-!
Connection model (MediaPhone.tsx): the refs touched by
_disconnectFromCall, _closeMediaServerConnection and the stop-flush
timer, together with the externally observable actions they perform.
-/

/-- WebSocket readyState of the wsRef target. -/
inductive WsReadyState
  | connecting
  | wsOpen
  | closing
  | wsClosed
deriving DecidableEq

/-- Connection-related refs of the MediaPhone component: none for
wsRef models a null wsRef.current. -/
structure CallState where
  isDisconnecting : Bool
  ws : Option WsReadyState
  audioContextOpen : Bool
  decoderNodeAttached : Bool
  sequenceNumber : Int
  callSid : Option String
  streamSid : Option String
deriving DecidableEq

/-- Externally observable step of the disconnect sequence. -/
inductive DisconnectAction
  | sendStop (sequenceNumber : Int) (callSid streamSid : Option String)
  | scheduleCloseTimer (delayMs : Nat)
  | closeWs (code : Nat) (reason : String)
  | closeAudioContext
deriving DecidableEq

/-- MediaPhone._closeMediaServerConnection: close the socket and null
the ref; a null ref makes it a no-op. -/
def closeMediaServerConnection (s : CallState) (code : Nat) (reason : String) :
    CallState × List DisconnectAction :=
  match s.ws with
  | none => (s, [])
  | some _ => ({ s with ws := none }, [.closeWs code reason])

/-- Callback of the setTimeout scheduled in _disconnectFromCall:
if (wsRef.current) close with the normal-closure code. -/
def closeTimerFire (s : CallState) : CallState × List DisconnectAction :=
  closeMediaServerConnection s 1000 "User disconnected"

/-- MediaPhone._disconnectFromCall: early-return while already
disconnecting; on an open socket send the stop envelope (post-
incrementing the sequence counter) and schedule the 100 ms close timer;
then — still synchronously — the unconditional if (wsRef.current)
block closes the socket at once; finally drop the decoder node ref,
close the audio context and set the disconnecting flag. -/
def disconnectFromCall (s : CallState) : CallState × List DisconnectAction :=
  if s.isDisconnecting then (s, [])
  else
    let r :=
      match s.ws with
      | none => (s, ([] : List DisconnectAction))
      | some rs =>
        let r1 :=
          if rs = WsReadyState.wsOpen then
            ({ s with sequenceNumber := s.sequenceNumber + 1 },
             [DisconnectAction.sendStop s.sequenceNumber s.callSid s.streamSid,
              DisconnectAction.scheduleCloseTimer 100])
          else (s, [])
        let r2 := closeMediaServerConnection r1.1 1000 "User disconnected"
        (r2.1, r1.2 ++ r2.2)
    let s1 := { r.1 with decoderNodeAttached := false }
    let r3 :=
      if s1.audioContextOpen then
        ({ s1 with audioContextOpen := false }, [DisconnectAction.closeAudioContext])
      else (s1, ([] : List DisconnectAction))
    ({ r3.1 with isDisconnecting := true }, r.2 ++ r3.2)

/-- Discriminator for stop envelopes in a disconnect action trace. -/
def isSendStop : DisconnectAction → Bool
  | .sendStop _ _ _ => true
  | _ => false

/-- Discriminator for socket-close actions in a disconnect trace. -/
def isCloseWs : DisconnectAction → Bool
  | .closeWs _ _ => true
  | _ => false

/-!
Concrete scenario states used by the testable properties.
-/

/-- Main-thread state right after the audio pipeline is set up. -/
def initMainState : MainState :=
  { pendingMarkFromServer := none, pendingMarks := [], decoder := initDecoderState }

/-- Decoder state after frames with sequence numbers 5, 3 and 4 (one
byte of payload each, named after the number) arrive in that order. -/
def ooState : DecoderState :=
  let s1 := (handleMessage initDecoderState (.decode [5] none (some 5))).1
  let s2 := (handleMessage s1 (.decode [3] none (some 3))).1
  (handleMessage s2 (.decode [4] none (some 4))).1

/-- Decoder state after a two-byte frame at sequence 3 without a mark
and a two-byte frame at sequence 4 carrying the mark named m. -/
def markState : DecoderState :=
  let s1 := (handleMessage initDecoderState (.decode [30, 31] none (some 3))).1
  (handleMessage s1 (.decode [40, 41] (some ("m")) (some 4))).1

/-- Inbound traffic for the clear property: marks named a and b, each
followed by the media frame they announce, then a clear. -/
def clearScenarioEnvelopes : List InboundEnvelope :=
  [.mark (some ("a")), .media [10] 1 1, .mark (some ("b")), .media [20] 2 2, .clear]

/-- A live call: open socket, audio running, fresh counters. -/
def liveCallState : CallState :=
  { isDisconnecting := false, ws := some WsReadyState.wsOpen,
    audioContextOpen := true, decoderNodeAttached := true,
    sequenceNumber := 0, callSid := some ("CA1"), streamSid := some ("MZ1") }

/-!
Helper lemmas shared by the claim theorems.
-/

/-- Underrun helper: with no current buffer and an empty queue, one
process call outputs only zeros, posts nothing, and only clears the
isActive flag. -/
theorem process_underrun_aux (st : DecoderState) (quantum : Nat)
    (hcur : st.currentBuffer = none) (hq : st.bufferQueue = []) :
    process st quantum =
      { state := { st with isActive := false },
        output := List.replicate quantum 0, messages := [] } := by
  simp [process, bufferExhausted, loadNextBuffer, hcur, hq]

/-- Idle helper: a fully drained, inactive decoder is a fixed point of
process, so any number of further calls yields silence and no posts. -/
theorem runProcess_idle (quantum : Nat) (st : DecoderState) (n : Nat)
    (hcur : st.currentBuffer = none) (hq : st.bufferQueue = [])
    (hact : st.isActive = false) :
    runProcess quantum st n =
      (st, List.replicate n (List.replicate quantum 0), []) := by
  induction n with
  | zero => simp [runProcess]
  | succ n ih =>
    have hstep : process st quantum =
        { state := st, output := List.replicate quantum 0, messages := [] } := by
      rw [process_underrun_aux st quantum hcur hq]
      cases st
      simp_all
    simp [runProcess, hstep, ih, List.replicate_succ]

/-- Splitting a run of process calls at an intermediate count. -/
theorem runProcess_add (quantum m n : Nat) (st : DecoderState) :
    runProcess quantum st (m + n) =
      ((runProcess quantum (runProcess quantum st m).1 n).1,
       (runProcess quantum st m).2.1 ++
         (runProcess quantum (runProcess quantum st m).1 n).2.1,
       (runProcess quantum st m).2.2 ++
         (runProcess quantum (runProcess quantum st m).1 n).2.2) := by
  induction m generalizing st with
  | zero => simp [runProcess]
  | succ m ih =>
    rw [Nat.succ_add]
    simp [runProcess, ih, List.append_assoc]

/-!
Claim theorems.
-/

set_option maxRecDepth 10000 in
/-- C1: the 256-entry µ-law decode table built by initMuLawTable
matches the canonical telephony reference decode table bit-for-bit for
every byte value 0..255, including the most extreme negative code
(entry 0 decodes to -32124). -/
theorem muLawTable_matches_reference :
    (List.range 256).map muLawTable = muLawReferenceTable := by decide

/-- Bridge: linearToUlaw on the exact dyadic float (t / 32768) * 32767
agrees with the integer computation linearToUlawScaled t. -/
theorem linearToUlaw_scaled (t : Int) :
    linearToUlaw ((t : ℚ) / 32768 * 32767) = linearToUlawScaled t := by
  have h32768 : (0:ℚ) < 32768 := by norm_num
  have hsign : ((t : ℚ) / 32768 * 32767 < 0) ↔ (t < 0) := by
    rw [div_mul_eq_mul_div, div_lt_iff₀ h32768, zero_mul]
    have h1 : (t:ℚ) * 32767 < 0 ↔ (t:ℚ) < 0 := by
      constructor <;> intro h <;> nlinarith
    rw [h1, Int.cast_lt_zero]
  have habs : |(t : ℚ) / 32768 * 32767| = ((t.natAbs : ℕ) : ℚ) / 32768 * 32767 := by
    rw [abs_mul, abs_div, Int.cast_natAbs]
    norm_num
  have hclip : ((32635 : ℚ) < ((t.natAbs : ℕ) : ℚ) / 32768 * 32767) ↔
      (32635 * 32768 < t.natAbs * 32767) := by
    rw [div_mul_eq_mul_div, lt_div_iff₀ h32768]
    constructor <;> intro h <;> exact_mod_cast h
  have hfloor : (⌊((t.natAbs : ℕ) : ℚ) / 32768 * 32767 + (0x84 : ℚ)⌋).toNat
      = t.natAbs * 32767 / 32768 + 0x84 := by
    rw [div_mul_eq_mul_div]
    have e1 : ((t.natAbs : ℕ) : ℚ) * 32767 = (((t.natAbs * 32767 : ℕ) : ℤ) : ℚ) := by
      push_cast [Int.cast_natAbs]; ring
    have e2 : (32768 : ℚ) = ((32768 : ℕ) : ℚ) := by norm_num
    rw [e1, e2, show (0x84 : ℚ) = ((0x84 : ℤ) : ℚ) by norm_num,
      Int.floor_add_int, Rat.floor_intCast_div_natCast]
    omega
  have hS : (⌊(if (32635 : ℚ) < |(t : ℚ) / 32768 * 32767| then (32635 : ℚ)
        else |(t : ℚ) / 32768 * 32767|) + (0x84 : ℚ)⌋).toNat
      = (if 32635 * 32768 < t.natAbs * 32767 then 32635 + 0x84
         else t.natAbs * 32767 / 32768 + 0x84) := by
    rw [habs]
    by_cases hc : 32635 * 32768 < t.natAbs * 32767
    · rw [if_pos (hclip.mpr hc), if_pos hc]
      norm_num
      rfl
    · rw [if_neg (fun h => hc (hclip.mp h)), if_neg hc, hfloor]
  simp only [linearToUlaw, linearToUlawScaled, gt_iff_lt]
  rw [hS]
  simp only [hsign]

/-- Round trip through the decode table expressed in integer form. -/
theorem ulawRoundTrip_eq (b : Nat) :
    ulawRoundTrip b = linearToUlawScaled (muLawTable b) := by
  unfold ulawRoundTrip encodeSample decodeMuLaw
  exact linearToUlaw_scaled (muLawTable b)

/-- C2 counterexample: encoding the decoded sample of byte 127 yields
byte 255, not 127 — the decode table collapses the two µ-law zero
codes 127 and 255 to the same sample, so encode∘decode is not the
identity on all 256 byte values and the pair is not a bijection. -/
theorem ulawRoundTrip_fails_at_127 :
    ulawRoundTrip 127 = 255 ∧ (255 : Nat) ≠ 127 := by
  constructor
  · rw [ulawRoundTrip_eq]; decide
  · decide

set_option maxRecDepth 2000 in
/-- C2 amended: for every encoded byte value except 127, encoding the
decoded sample reproduces the byte exactly; at 127 it yields 255. -/
theorem ulawRoundTrip_eq_self_except_127 (b : Nat) (hb : b < 256) (hne : b ≠ 127) :
    ulawRoundTrip b = b := by
  rw [ulawRoundTrip_eq]
  have h : ∀ b : Nat, b < 256 → b ≠ 127 → linearToUlawScaled (muLawTable b) = b := by
    decide
  exact h b hb hne

/-- Witness for the amended C2 at byte 0. -/
theorem ulawRoundTrip_eq_self_except_127_witness :
    0 < 256 ∧ 0 ≠ 127 ∧ ulawRoundTrip 0 = 0 :=
  ⟨by decide, by decide, ulawRoundTrip_eq_self_except_127 0 (by decide) (by decide)⟩

set_option maxRecDepth 10000 in
/-- C10: every decode-table magnitude is at most 32124, so every
decoded sample decodeMuLaw b = muLawTable[b] / 32768 lies strictly
inside the open interval (-1, 1). -/
theorem decodeMuLaw_strictly_inside_unit (b : Nat) (hb : b < 256) :
    (muLawTable b).natAbs ≤ 32124 ∧ -1 < decodeMuLaw b ∧ decodeMuLaw b < 1 := by
  have h : (muLawTable b).natAbs ≤ 32124 := by
    have hall : ∀ b : Nat, b < 256 → (muLawTable b).natAbs ≤ 32124 := by decide
    exact hall b hb
  have habs : |(muLawTable b : ℚ)| ≤ 32124 := by
    have h2 : |muLawTable b| ≤ (32124 : ℤ) := by
      rw [Int.abs_eq_natAbs]; exact_mod_cast h
    rw [← Int.cast_abs]
    exact_mod_cast h2
  have hlt : |decodeMuLaw b| < 1 := by
    unfold decodeMuLaw
    rw [abs_div]
    rw [show |(32768 : ℚ)| = 32768 by norm_num]
    rw [div_lt_one (by norm_num : (0:ℚ) < 32768)]
    calc |(muLawTable b : ℚ)| ≤ 32124 := habs
      _ < 32768 := by norm_num
  exact ⟨h, (abs_lt.mp hlt).1, (abs_lt.mp hlt).2⟩

/-- Witness for C10 at byte 0. -/
theorem decodeMuLaw_strictly_inside_unit_witness :
    0 < 256 ∧ ((muLawTable 0).natAbs ≤ 32124 ∧
      -1 < decodeMuLaw 0 ∧ decodeMuLaw 0 < 1) :=
  ⟨by decide, decodeMuLaw_strictly_inside_unit 0 (by decide)⟩

/-- C9: a render call on a decoder with no current buffer and an empty
pending queue fills the entire output quantum with zero samples. -/
theorem render_silence_on_underrun (st : DecoderState) (quantum : Nat)
    (hcur : st.currentBuffer = none) (hq : st.bufferQueue = []) :
    (process st quantum).output = List.replicate quantum 0 := by
  rw [process_underrun_aux st quantum hcur hq]

/-- Witness for C9: a fresh decoder and a 160-sample quantum. -/
theorem render_silence_on_underrun_witness :
    initDecoderState.currentBuffer = none ∧ initDecoderState.bufferQueue = [] ∧
    (process initDecoderState 160).output = List.replicate 160 0 :=
  ⟨rfl, rfl, render_silence_on_underrun initDecoderState 160 rfl rfl⟩

/-- C3: after frames with sequence numbers 5, 3, 4 arrive in that
order, the pending queue is sorted ascending by sequence number and
three render calls drain the frames in order 3, 4, 5. -/
theorem render_drains_in_sequence_order :
    ooState.bufferQueue.map QueuedBuffer.sequenceNumber = [3, 4, 5] ∧
    (runProcess 1 ooState 3).2.1 =
      [[decodeMuLaw 3], [decodeMuLaw 4], [decodeMuLaw 5]] := by
  constructor
  · decide
  · rfl

/-- C4: with a markless frame at sequence 3 and a marked frame at
sequence 4, the first two render calls complete no marker while
producing exactly the samples of frames 3 and 4, and every longer run
of render calls completes that mark exactly once. -/
theorem marker_completed_once_after_drain :
    markCompletions (runProcess 2 markState 2).2.2 = [] ∧
    (runProcess 2 markState 2).2.1 =
      [[decodeMuLaw 30, decodeMuLaw 31], [decodeMuLaw 40, decodeMuLaw 41]] ∧
    ∀ n : Nat, markCompletions (runProcess 2 markState (3 + n)).2.2 = ["m"] := by
  refine ⟨by decide, rfl, ?_⟩
  intro n
  rw [runProcess_add 2 3 n markState]
  have e3 : runProcess 2 markState 3 =
      (⟨[], none, 2, none, false, 0⟩,
       [[decodeMuLaw 30, decodeMuLaw 31], [decodeMuLaw 40, decodeMuLaw 41],
        List.replicate 2 0],
       [WorkletOut.bufferProcessed none, WorkletOut.bufferProcessed (some ("m"))]) := by
    rfl
  rw [e3]
  rw [runProcess_idle 2 ⟨[], none, 2, none, false, 0⟩ n rfl rfl rfl]
  rfl

/-- C5 evaluation: after two distinct marks are each announced and
attached to an enqueued media frame and a clear envelope arrives, the
code sends no outbound mark envelope at all — pendingMarksRef is never
populated and the worklet clear discards the queued marks silently —
and a following render call outputs pure silence. -/
theorem clear_reports_no_marks :
    (runInbound initMainState clearScenarioEnvelopes).2 = [] ∧
    (runInbound initMainState clearScenarioEnvelopes).1.decoder.bufferQueue = [] ∧
    (process (runInbound initMainState clearScenarioEnvelopes).1.decoder 160).output
      = List.replicate 160 0 := by
  refine ⟨rfl, rfl, ?_⟩
  rw [process_underrun_aux _ 160 rfl rfl]

/-- C6: a first disconnect from a live open connection sends exactly
one stop envelope and closes the socket exactly once, and a second
disconnect call is a no-op returning the same state and no actions. -/
theorem disconnect_idempotent (s : CallState)
    (hflag : s.isDisconnecting = false) (hws : s.ws = some WsReadyState.wsOpen) :
    ((disconnectFromCall s).2.filter isSendStop).length = 1 ∧
    ((disconnectFromCall s).2.filter isCloseWs).length = 1 ∧
    disconnectFromCall (disconnectFromCall s).1 = ((disconnectFromCall s).1, []) := by
  by_cases haudio : s.audioContextOpen <;>
    simp [disconnectFromCall, closeMediaServerConnection, hflag, hws, haudio,
      isSendStop, isCloseWs]

/-- Witness for C6 at the live call state. -/
theorem disconnect_idempotent_witness :
    liveCallState.isDisconnecting = false ∧
    liveCallState.ws = some WsReadyState.wsOpen ∧
    (((disconnectFromCall liveCallState).2.filter isSendStop).length = 1 ∧
     ((disconnectFromCall liveCallState).2.filter isCloseWs).length = 1 ∧
     disconnectFromCall (disconnectFromCall liveCallState).1 =
       ((disconnectFromCall liveCallState).1, [])) :=
  ⟨rfl, rfl, disconnect_idempotent liveCallState rfl rfl⟩

/-- C7 evaluation: from a live open connection the disconnect call
emits the normal-closure socket close synchronously, immediately after
scheduling the 100 ms stop-flush timer, and when that timer fires the
socket ref is already null so the timer does nothing — the close does
not wait for the grace delay. -/
theorem disconnect_closes_before_timer :
    (disconnectFromCall liveCallState).2 =
      [DisconnectAction.sendStop 0 (some ("CA1")) (some ("MZ1")),
       DisconnectAction.scheduleCloseTimer 100,
       DisconnectAction.closeWs 1000 "User disconnected",
       DisconnectAction.closeAudioContext] ∧
    closeTimerFire (disconnectFromCall liveCallState).1 =
      ((disconnectFromCall liveCallState).1, []) := by
  constructor <;> rfl

/-- C8: an inbound mark name is held in the single pending slot; the
next media frame is forwarded to the decoder carrying exactly that
name, after which the slot is empty and a following media frame
carries none; a second mark arriving before any media overwrites the
first (most-recent-wins). -/
theorem mark_slot_most_recent_wins (s : MainState) (n1 n2 : String)
    (payload payload2 : List Nat) (seq chunk seq2 chunk2 : Int)
    (h1 : n1 ≠ "") (h2 : n2 ≠ "") :
    (handleWebSocketMessage s (.mark (some n1))).1.pendingMarkFromServer = some n1 ∧
    (handleWebSocketMessage (handleWebSocketMessage s (.mark (some n1))).1
        (.mark (some n2))).1.pendingMarkFromServer = some n2 ∧
    (handleWebSocketMessage (handleWebSocketMessage s (.mark (some n1))).1
        (.media payload seq chunk)).2.2 =
      [WorkletIn.decode payload (some n1) (some (if seq == 0 then chunk else seq))] ∧
    (handleWebSocketMessage (handleWebSocketMessage s (.mark (some n1))).1
        (.media payload seq chunk)).1.pendingMarkFromServer = none ∧
    (handleWebSocketMessage
        (handleWebSocketMessage (handleWebSocketMessage s (.mark (some n1))).1
          (.media payload seq chunk)).1
        (.media payload2 seq2 chunk2)).2.2 =
      [WorkletIn.decode payload2 none (some (if seq2 == 0 then chunk2 else seq2))] := by
  simp [handleWebSocketMessage, processMediaMessage, jsMarkField, h1, h2]

/-- Witness for C8 with two distinct marks and two one-byte frames. -/
theorem mark_slot_most_recent_wins_witness :
    ("a" : String) ≠ "" ∧ ("b" : String) ≠ "" ∧
    ((handleWebSocketMessage initMainState (.mark (some ("a")))).1.pendingMarkFromServer
        = some ("a") ∧
     (handleWebSocketMessage (handleWebSocketMessage initMainState (.mark (some ("a")))).1
        (.mark (some ("b")))).1.pendingMarkFromServer = some ("b") ∧
     (handleWebSocketMessage (handleWebSocketMessage initMainState (.mark (some ("a")))).1
        (.media [10] 1 1)).2.2 =
      [WorkletIn.decode [10] (some ("a")) (some (if (1 : Int) == 0 then 1 else 1))] ∧
     (handleWebSocketMessage (handleWebSocketMessage initMainState (.mark (some ("a")))).1
        (.media [10] 1 1)).1.pendingMarkFromServer = none ∧
     (handleWebSocketMessage
        (handleWebSocketMessage (handleWebSocketMessage initMainState (.mark (some ("a")))).1
          (.media [10] 1 1)).1
        (.media [20] 2 2)).2.2 =
      [WorkletIn.decode [20] none (some (if (2 : Int) == 0 then 2 else 2))]) :=
  ⟨by decide, by decide,
   mark_slot_most_recent_wins initMainState ("a") ("b") [10] [20] 1 1 2 2
     (by decide) (by decide)⟩
